import Mathlib

set_option maxRecDepth 8192

/-
Verification of the `pythrun` diagnostic fixture (`src/pythrun-test.py`).

The program is a single linear sequence of timed writes to standard output
and standard error, ending in `sys.exit(42)`.  We embed it as the trace of
I/O events it performs: each `print(s)` becomes one write of `s ++ "\n"` on
its channel, each `stream.write(c)` a write of the one-character string,
each `stream.flush()` a flush event, each `time.sleep(t)` a sleep event in
milliseconds, and `sys.exit(42)` a final exit event.
-/

namespace Pythrun

/-- The two output channels of the process. -/
inductive Chan : Type
  | out
  | err
  deriving DecidableEq, Repr

/-- One observable step of the program. -/
inductive Event : Type
  | write (c : Chan) (s : String)
  | flush (c : Chan)
  | sleep (ms : Nat)
  | exitWith (code : Nat)
  deriving DecidableEq, Repr

/-- Python `print(s, file=c)`: a single write of the text plus the trailing
newline on channel `c`. -/
def printLn (c : Chan) (s : String) : Event := .write c (s ++ "\n")

/-- The phase-4 character loop: for each character of `s`, write the single
character to `c`, flush `c`, and sleep 50 ms (`time.sleep(0.05)`). -/
def charSteps (c : Chan) (s : String) : List Event :=
  s.toList.flatMap (fun ch => [.write c (String.singleton ch), .flush c, .sleep 50])

/-- Lines 5-9 of the source: the phase-1 header and the loop over
i in range(1, 6) printing the numbered stdout lines with 200 ms sleeps. -/
def phase1 : List Event :=
  printLn .out "Expected: 5 lines of stdout - 1st set" ::
  (List.range' 1 5).flatMap
    (fun i => [printLn .out ("stdout: Line " ++ toString i), .sleep 200])

/-- Lines 11-15 of the source: the phase-2 header and loop on stderr. -/
def phase2 : List Event :=
  printLn .err "Expected: 5 lines of stderr - 2nd set" ::
  (List.range' 1 5).flatMap
    (fun i => [printLn .err ("stderr: Line " ++ toString i), .sleep 200])

/-- Lines 17-22 of the source: the phase-3 header and the interleaving loop
(stdout line, stderr line, 100 ms sleep, for i = 1..5). -/
def phase3 : List Event :=
  printLn .out "Expected: 5 interleaved lines of stdout and stderr - 3rd set" ::
  (List.range' 1 5).flatMap
    (fun i =>
      [printLn .out ("stdout: Interleaved Line " ++ toString i),
       printLn .err ("stderr: Interleaved Line " ++ toString i),
       .sleep 100])

/-- Lines 24-33 of the source: the phase-4 header and the two
character-by-character loops, stdout first, then stderr. -/
def phase4 : List Event :=
  printLn .out "Expected: Character by character output with pauses - 4th set" ::
  (charSteps .out "stdout: Character output\n" ++
   charSteps .err "stderr: Character output\n")

/-- Lines 35-36 of the source: the final print and `sys.exit(42)`. -/
def finale : List Event :=
  [printLn .out "Exiting with code 42", .exitWith 42]

/-- The complete trace of `main()`: the four phases in source order followed
by the final line and exit. -/
def main_trace : List Event := phase1 ++ phase2 ++ phase3 ++ phase4 ++ finale

/-- The payloads of the write events on channel `c`, in emission order. -/
def writesOn (c : Chan) (t : List Event) : List String :=
  t.filterMap (fun e =>
    match e with
    | .write c2 s => if c2 = c then some s else none
    | _ => none)

/-- Everything the trace writes on channel `c`, concatenated. -/
def chanContent (c : Chan) (t : List Event) : String :=
  String.join (writesOn c t)

/-- Number of newline characters in a string: the number of
newline-terminated lines it contains. -/
def newlineCount (s : String) : Nat :=
  (s.toList.filter (fun ch => ch = '\n')).length

/-- The exit codes the trace requests, in order. -/
def exitCodes (t : List Event) : List Nat :=
  t.filterMap (fun e =>
    match e with
    | .exitWith n => some n
    | _ => none)

/-- `tripleAdjacent a b c t` holds when the three events `a`, `b`, `c` occur
consecutively, in that order, somewhere in the trace `t`. -/
def tripleAdjacent (a b c : Event) : List Event → Bool
  | x :: y :: z :: rest =>
      (x == a && y == b && z == c) || tripleAdjacent a b c (y :: z :: rest)
  | _ => false

/-- How many times the event `e` occurs in the trace `t`. -/
def countEvent (e : Event) (t : List Event) : Nat :=
  (t.filter (fun x => x == e)).length

/-- The payloads of the single-character write events on channel `c`, in
emission order.  In this program these are exactly the phase-4 writes. -/
def charWritesOn (c : Chan) (t : List Event) : List String :=
  t.filterMap (fun e =>
    match e with
    | .write c2 s => if c2 = c ∧ s.length = 1 then some s else none
    | _ => none)

/-- The channels of the single-character write events, in emission order. -/
def singleCharChans (t : List Event) : List Chan :=
  t.filterMap (fun e =>
    match e with
    | .write c s => if s.length = 1 then some c else none
    | _ => none)

/-- `singleCharFlushOk t` holds when every single-character write in `t` is
immediately followed by a flush of the same channel. -/
def singleCharFlushOk : List Event → Bool
  | .write c s :: rest =>
      (s.length != 1 ||
        (match rest.head? with
         | some (.flush c2) => c2 == c
         | _ => false)) && singleCharFlushOk rest
  | _ :: rest => singleCharFlushOk rest
  | [] => true

/-- Whether the string `pre` is a prefix of the string `s`. -/
def strStarts (pre s : String) : Bool := pre.toList.isPrefixOf s.toList

/-- Whether the string `suf` is a suffix of the string `s`. -/
def strEnds (suf s : String) : Bool := suf.toList.isSuffixOf s.toList

/-- The phase an event belongs to, judged from its content: 1-4 for the
four output phases (classified by the literal header texts and the fixed
line shapes of the source), 5 for the final message and the exit.  Sleeps
and flushes carry no content and are not classified. -/
def eventPhase (e : Event) : Option Nat :=
  match e with
  | .write _ s =>
      if s = "Expected: 5 lines of stdout - 1st set\n" then some 1
      else if strStarts "stdout: Line " s then some 1
      else if s = "Expected: 5 lines of stderr - 2nd set\n" then some 2
      else if strStarts "stderr: Line " s then some 2
      else if s = "Expected: 5 interleaved lines of stdout and stderr - 3rd set\n" then some 3
      else if strStarts "stdout: Interleaved" s then some 3
      else if strStarts "stderr: Interleaved" s then some 3
      else if s = "Expected: Character by character output with pauses - 4th set\n" then some 4
      else if s.length = 1 then some 4
      else if s = "Exiting with code 42\n" then some 5
      else none
  | .flush _ => none
  | .sleep _ => none
  | .exitWith _ => some 5

/-- The sequence of phase numbers of the content-carrying events of the
program, in execution order. -/
def phaseSeq : List Nat := main_trace.filterMap eventPhase

/-- `nondecreasing l` holds when each element of `l` is at most the next
one: the sequence never goes back to an earlier value. -/
def nondecreasing : List Nat → Bool
  | a :: b :: rest => decide (a ≤ b) && nondecreasing (b :: rest)
  | _ => true

/-- The ambient state a process could in principle observe: standard input,
command-line arguments, environment variables. -/
structure Env : Type where
  stdinData : List String
  argv : List String
  environVars : List (String × String)

/-- The observable behavior of one run of the program started in ambient
state `e`.  The source's `main` consults neither standard input, nor
`sys.argv`, nor any environment variable, nor any file, so the trace it
produces does not depend on `e`. -/
def run (_ : Env) : List Event := main_trace

/-- Variant program for the refinement comparison: identical to
`main_trace` except that phase 4 writes each of the two fixed strings in a
single write instead of character by character. -/
def phase4_bulk : List Event :=
  printLn .out "Expected: Character by character output with pauses - 4th set" ::
  [.write .out "stdout: Character output\n", .flush .out, .sleep 50,
   .write .err "stderr: Character output\n", .flush .err, .sleep 50]

/-- The trace of the bulk-write variant program. -/
def main_trace_bulk : List Event :=
  phase1 ++ phase2 ++ phase3 ++ phase4_bulk ++ finale

/-- C1: the program terminates with exit status exactly 42, the exit is the
very last event of the run, the event just before it is the write of the
final line "Exiting with code 42" to standard output, and no other exit is
ever requested. -/
theorem exit_42_after_final_line :
    main_trace.getLast? = some (.exitWith 42) ∧
    main_trace.dropLast.getLast? = some (.write .out "Exiting with code 42\n") ∧
    exitCodes main_trace = [42] :=
  ⟨rfl, rfl, rfl⟩

/-- C2: the sequence of writes to standard output is exactly the phase-1
header and its five lines, the phase-3 header and its five stdout lines,
the phase-4 header, the 25 characters of "stdout: Character output\n" as
individual writes, and the final "Exiting with code 42" line. -/
theorem stdout_write_sequence :
    writesOn .out main_trace =
      ["Expected: 5 lines of stdout - 1st set\n",
       "stdout: Line 1\n", "stdout: Line 2\n", "stdout: Line 3\n",
       "stdout: Line 4\n", "stdout: Line 5\n",
       "Expected: 5 interleaved lines of stdout and stderr - 3rd set\n",
       "stdout: Interleaved Line 1\n", "stdout: Interleaved Line 2\n",
       "stdout: Interleaved Line 3\n", "stdout: Interleaved Line 4\n",
       "stdout: Interleaved Line 5\n",
       "Expected: Character by character output with pauses - 4th set\n",
       "s", "t", "d", "o", "u", "t", ":", " ", "C", "h", "a", "r", "a", "c",
       "t", "e", "r", " ", "o", "u", "t", "p", "u", "t", "\n",
       "Exiting with code 42\n"] :=
  rfl

/-- C3: the sequence of writes to standard error is exactly the phase-2
header and its five lines, the five phase-3 stderr lines, and the 25
characters of "stderr: Character output\n" as individual writes; nothing
else is ever written to standard error. -/
theorem stderr_write_sequence :
    writesOn .err main_trace =
      ["Expected: 5 lines of stderr - 2nd set\n",
       "stderr: Line 1\n", "stderr: Line 2\n", "stderr: Line 3\n",
       "stderr: Line 4\n", "stderr: Line 5\n",
       "stderr: Interleaved Line 1\n", "stderr: Interleaved Line 2\n",
       "stderr: Interleaved Line 3\n", "stderr: Interleaved Line 4\n",
       "stderr: Interleaved Line 5\n",
       "s", "t", "d", "e", "r", "r", ":", " ", "C", "h", "a", "r", "a", "c",
       "t", "e", "r", " ", "o", "u", "t", "p", "u", "t", "\n"] :=
  rfl

/-- C4, counterexample: the total number of newline-terminated lines
emitted across both streams is not 21 as the claim states. -/
theorem total_lines_not_21 :
    ¬ (newlineCount (chanContent .out main_trace) +
         newlineCount (chanContent .err main_trace) = 21) := by
  decide

/-- C4, amended: the total number of lines emitted across standard output
and standard error together is exactly 27, and the exit code is 42, so a
harness may use exit code 42 together with the count of 27 lines as the
success signal. -/
theorem total_lines_27_and_exit_42 :
    newlineCount (chanContent .out main_trace) +
      newlineCount (chanContent .err main_trace) = 27 ∧
    exitCodes main_trace = [42] :=
  ⟨by decide, rfl⟩

/-- C5: for every i = 1..5, the phase-3 stdout line of iteration i is
emitted immediately before the stderr line of the same iteration, with the
100 ms sleep right after the pair, and each of the two lines is emitted
exactly once in the whole run (so the stderr line of iteration i is never
emitted before the stdout line of iteration i). -/
theorem interleaved_pair_order (i : Nat) (h1 : 1 ≤ i) (h2 : i ≤ 5) :
    tripleAdjacent
        (.write .out ("stdout: Interleaved Line " ++ toString i ++ "\n"))
        (.write .err ("stderr: Interleaved Line " ++ toString i ++ "\n"))
        (.sleep 100) main_trace = true ∧
    countEvent
        (.write .out ("stdout: Interleaved Line " ++ toString i ++ "\n"))
        main_trace = 1 ∧
    countEvent
        (.write .err ("stderr: Interleaved Line " ++ toString i ++ "\n"))
        main_trace = 1 := by
  interval_cases i <;> exact ⟨rfl, rfl, rfl⟩

/-- Witness for C5 at the concrete iteration i = 3. -/
theorem interleaved_pair_order_witness :
    tripleAdjacent
        (.write .out ("stdout: Interleaved Line " ++ toString 3 ++ "\n"))
        (.write .err ("stderr: Interleaved Line " ++ toString 3 ++ "\n"))
        (.sleep 100) main_trace = true ∧
    countEvent
        (.write .out ("stdout: Interleaved Line " ++ toString 3 ++ "\n"))
        main_trace = 1 ∧
    countEvent
        (.write .err ("stderr: Interleaved Line " ++ toString 3 ++ "\n"))
        main_trace = 1 :=
  interleaved_pair_order 3 (by decide) (by decide)

/-- C6: the two phase-4 strings are each exactly 25 characters long
(trailing newline included), the single-character writes on each channel
concatenate to exactly those strings with 25 writes per channel, every
single-character write is immediately followed by a flush of its own
channel, and all 25 stdout characters are emitted before any stderr
character. -/
theorem phase4_char_by_char :
    ("stdout: Character output\n").length = 25 ∧
    ("stderr: Character output\n").length = 25 ∧
    String.join (charWritesOn .out main_trace) = "stdout: Character output\n" ∧
    String.join (charWritesOn .err main_trace) = "stderr: Character output\n" ∧
    (charWritesOn .out main_trace).length = 25 ∧
    (charWritesOn .err main_trace).length = 25 ∧
    singleCharFlushOk main_trace = true ∧
    singleCharChans main_trace =
      List.replicate 25 .out ++ List.replicate 25 .err :=
  ⟨rfl, rfl, rfl, rfl, rfl, rfl, rfl, rfl⟩

/-- C7: the program is deterministic: two runs in arbitrary ambient states
produce the identical event trace, hence byte-identical output on each
channel and the same exit status; the output depends on no input, flag,
environment variable, or state carried across runs. -/
theorem run_deterministic (e1 e2 : Env) :
    run e1 = run e2 ∧
    chanContent .out (run e1) = chanContent .out (run e2) ∧
    chanContent .err (run e1) = chanContent .err (run e2) ∧
    exitCodes (run e1) = exitCodes (run e2) :=
  ⟨rfl, rfl, rfl, rfl⟩

/-- C8: the phase numbers of the content-carrying events form a
monotonically nondecreasing sequence 1 to 5 (no step revisits an earlier
phase), every one of the 75 writes and the exit is classified into a phase,
and within phases 1-3 the line counter advances through 1,2,3,4,5 in order
on each channel; the phase-4 character cursors likewise advance in order,
spelling the two strings exactly. -/
theorem phases_monotone :
    nondecreasing phaseSeq = true ∧
    phaseSeq.length = 76 ∧
    (writesOn .out main_trace).filter (fun s => strStarts "stdout: Line " s) =
      (List.range' 1 5).map (fun i => "stdout: Line " ++ toString i ++ "\n") ∧
    (writesOn .err main_trace).filter (fun s => strStarts "stderr: Line " s) =
      (List.range' 1 5).map (fun i => "stderr: Line " ++ toString i ++ "\n") ∧
    (writesOn .out main_trace).filter (fun s => strStarts "stdout: Interleaved" s) =
      (List.range' 1 5).map (fun i => "stdout: Interleaved Line " ++ toString i ++ "\n") ∧
    (writesOn .err main_trace).filter (fun s => strStarts "stderr: Interleaved" s) =
      (List.range' 1 5).map (fun i => "stderr: Interleaved Line " ++ toString i ++ "\n") ∧
    String.join (charWritesOn .out main_trace) = "stdout: Character output\n" ∧
    String.join (charWritesOn .err main_trace) = "stderr: Character output\n" := by
  refine ⟨by decide, by decide, by decide, by decide, by decide, by decide,
    by decide, by decide⟩

/-- C9: standard output receives exactly 15 newline-terminated lines,
standard error exactly 12, for 27 lines in total; each channel's content
indeed ends in a newline, so every line is newline-terminated. -/
theorem channel_line_counts :
    newlineCount (chanContent .out main_trace) = 15 ∧
    newlineCount (chanContent .err main_trace) = 12 ∧
    newlineCount (chanContent .out main_trace) +
      newlineCount (chanContent .err main_trace) = 27 ∧
    strEnds "\n" (chanContent .out main_trace) = true ∧
    strEnds "\n" (chanContent .err main_trace) = true := by
  refine ⟨by decide, by decide, by decide, by decide, by decide⟩

/-- C10: the phase-4 character-by-character emission is equivalent to a
single whole-string write: the per-character writes on each channel
concatenate to exactly the fixed strings, and the full channel contents of
the program equal those of the bulk-write variant that writes each string
in one write. -/
theorem phase4_refines_bulk :
    chanContent .out main_trace = chanContent .out main_trace_bulk ∧
    chanContent .err main_trace = chanContent .err main_trace_bulk ∧
    writesOn .out main_trace_bulk =
      (writesOn .out main_trace).take 13 ++
        ["stdout: Character output\n", "Exiting with code 42\n"] ∧
    writesOn .err main_trace_bulk =
      (writesOn .err main_trace).take 11 ++ ["stderr: Character output\n"] := by
  refine ⟨by decide, by decide, by decide, by decide⟩

end Pythrun
